import Mathlib

set_option autoImplicit false

/-!
Verification of the psyflow-mcp server core (`src/main.py`): repository
catalog filtering, the idempotent clone cache, the branch inspector, the
prompt builders, and the two branches of the `build_task` orchestrator.

External HTTP traffic is modelled at the response level: a fetch is a
function from a repository name to the response it yields (status code
plus body).  The filesystem side effects of the clone cache are modelled
as explicit state: the set of cache directories that exist plus a counter
of clone operations performed.
-/

namespace PsyflowMcp

/-- A role-tagged chat message, as produced by the prompt builders
(`base.UserMessage(...)` in the source). -/
structure Message where
  role : String
  content : String
deriving Repr, DecidableEq

/-- `base.UserMessage`: a message whose role is `user`. -/
def UserMessage (content : String) : Message :=
  ⟨"user", content⟩

/-- An HTTP response at the interface boundary: status code and body text
(`httpx.Response.status_code` / `.text`). -/
structure HttpResponse where
  status : Nat
  text : String
deriving Repr, DecidableEq

/-- `NON_TASK_REPOS`: the fixed exclusion set of non-task repositories. -/
def NON_TASK_REPOS : List String :=
  ["task-registry", ".github", "psyflow", "psyflow-mcp", "community",
   "taskbeacon.github.io"]

/-- `task_repos`: keep every repository name returned by the hosting API
that is not in `NON_TASK_REPOS` (`r["name"] not in NON_TASK_REPOS`).
`api` is the list of `name` fields of the API's JSON reply. -/
def task_repos (api : List String) : List String :=
  api.filter (fun n => !(NON_TASK_REPOS.contains n))

/-- Filesystem state seen by the clone cache: which cache directories
exist, and how many clone operations have been performed. -/
structure FsState where
  dirs : List String
  cloneCount : Nat
deriving Repr, DecidableEq

/-- `str(CACHE / repo)` with `CACHE = Path("./task_cache")`. -/
def cachePath (repo : String) : String :=
  "task_cache/" ++ repo

/-- `clone`: return the cache path; clone only if the destination
directory does not already exist (`if dest.exists(): return dest`). -/
def clone (repo : String) (st : FsState) : String × FsState :=
  if st.dirs.contains repo then (cachePath repo, st)
  else (cachePath repo, ⟨repo :: st.dirs, st.cloneCount + 1⟩)

/-- Does `needle` occur at the head of `hay`? -/
def leadMatch : List Char → List Char → Bool
  | [], _ => true
  | _ :: _, [] => false
  | a :: xs, b :: ys => a == b && leadMatch xs ys

/-- Substring search over character lists: does the needle occur at some
offset of the haystack? -/
def subSearch : List Char → List Char → Bool
  | needle, [] => leadMatch needle []
  | needle, b :: ys => leadMatch needle (b :: ys) || subSearch needle ys

/-- Python `needle in hay` on strings: substring containment. -/
def pyIn (needle hay : String) : Bool :=
  subSearch needle.toList hay.toList

/-- Python `s.lower()`: lowercase every character. -/
def strLower (s : String) : String :=
  String.mk (s.toList.map Char.toLower)

/-- `_PROMPT_TEMPLATE.format(source_task=..., target_task=...)`: the fixed
Stage-0→5 workflow text with both labels substituted. -/
def promptText (source_task target_task : String) : String :=
  "Turn my existing " ++ source_task ++
  " implementation in PsyFlow/TAPs into a " ++ target_task ++
  " task with as few changes as possible.\n\nBreakdown:\n\nStage 0: Plan\n* Read literature and figure out what a typical " ++
  target_task ++
  " task looks like\n* Define the flow: blocks → trials → events\n* Identify stimulus types, response keys, timing parameters, and key output fields\n\nStage 1: config.yaml\n* Adapt the existing config.yaml to run a " ++
  target_task ++
  " task\n* Highlight any parameters that need careful review\n\nStage 2: Trial logic (src/run_trial.py)\n* Adapt one existing trial template to run a single " ++
  target_task ++
  " trial\n* (Optional) If needed, add helpers in src/utils.py; otherwise skip\n\nStage 3: Block/session logic (main.py)\n* Implement block order, feedback screens, and pauses based on the template task\n* Keep the public API consistent with the original task\n\nStage 4: README.md\n* Match the structure and tone of existing tasks\n* Cover: purpose, install steps, config details, run instructions, and expected outputs\n\nStage 5: Static validation\n* Check that config.yaml keys line up with code references\n* Ensure logged DataFrame columns match the template task\n* Verify naming, docstrings, and imports follow PsyFlow conventions\n* Confirm variables such as timing and triggers match between run_trial.py and config.yaml\n* Spot any logic errors or unused variables\n\n(No PsychoPy runtime or unit tests are required during this step)"

/-- `transform_prompt`: the workflow text wrapped in a user message. -/
def transform_prompt (source_task target_task : String) : Message :=
  UserMessage (promptText source_task target_task)

/-- `translate_config_prompt`: instruction message plus the raw YAML
document as a second message. -/
def translate_config_prompt (yaml_text target_language : String) :
    List Message :=
  let intro :=
    "Translate selected fields of this PsyFlow config into " ++
    target_language ++ ". " ++
    "Translate ONLY:\n" ++
    "  • subinfo_mapping values\n" ++
    "  • stimuli entries of type \x27text\x27 or \x27textbox\x27 (the `text` field)\n\n" ++
    "Return the COMPLETE YAML with translated values — no commentary."
  [UserMessage intro, UserMessage yaml_text]

/-- A candidate entry handed to the template selector:
`{"repo": ..., "readme_snippet": ...}`. -/
structure Candidate where
  repo : String
  readme_snippet : String
deriving Repr, DecidableEq

/-- One menu line: `f"- **{c['repo']}**: {c['readme_snippet']}"`. -/
def menuLine (c : Candidate) : String :=
  "- **" ++ c.repo ++ "**: " ++ c.readme_snippet

/-- The fixed tie-break criteria text of `choose_template_prompt`. -/
def chooseCriteria : String :=
  "- Prefer tasks with the same **response mapping paradigm** (e.g. 2-choice left/right, go/no-go, continuous RT).\n- Prefer tasks whose **trial/block flow** most closely matches the requested task’s flow.\n- If several are equally close, choose the repo that appears to need the **fewest code edits** (smaller conceptual jump).\n"

/-- The instruction message of `choose_template_prompt`. -/
def chooseIntro : String :=
  "You are given a desired task description plus candidate PsyFlow template repositories.\n\nSelect the **one** template that will require the LEAST effort to transform into the desired task, using these tie-breakers:\n" ++
  chooseCriteria ++
  "\nRespond with **only** the repo name on a single line.\nIf NONE of the templates are reasonably close, respond with `NONE`."

/-- Python `"\n".join(items)`: interleave the items with newlines. -/
def joinNl : List String → String
  | [] => ""
  | [x] => x
  | x :: y :: xs => x ++ "\n" ++ joinNl (y :: xs)

/-- `"\n".join(menu lines) or "(no templates found)"`: the joined menu,
with the literal placeholder when the join is empty. -/
def menuOf (candidates : List Candidate) : String :=
  let joined := joinNl (candidates.map menuLine)
  if joined = "" then "(no templates found)" else joined

/-- `choose_template_prompt`: instruction, desired-task restatement, and
the candidate menu, as three user messages. -/
def choose_template_prompt (desc : String) (candidates : List Candidate) :
    List Message :=
  [UserMessage chooseIntro,
   UserMessage ("Desired task:\n" ++ desc),
   UserMessage ("Candidate templates:\n" ++ menuOf candidates)]

/-- One element of the branch-listing JSON body: an object with a `name`
field (`b["name"]`). -/
structure BranchInfo where
  name : String
deriving Repr, DecidableEq

/-- The response to the branch-listing request: status code and the parsed
JSON body, a list of branch records. -/
structure BranchResponse where
  status : Nat
  body : List BranchInfo
deriving Repr, DecidableEq

/-- `_repo_branches`: `[b["name"] for b in r.json()][:20]` — extract every
`name` and keep the first 20, with no inspection of the status code. -/
def repo_branches (resp : BranchResponse) : List String :=
  (resp.body.map BranchInfo.name).take 20

/-- `rd.text[:2000].replace("\n", " ")`: truncate to 2000 characters, then
replace each newline with a space. -/
def mkSnippet (text : String) : String :=
  String.mk ((text.toList.take 2000).map (fun c => if c = '\n' then ' ' else c))

/-- The snippet for one repository in `build_task` branch 2:
`rd.text[:2000].replace("\n", " ") if rd.status_code == 200 else ""`. -/
def readmeSnippet (resp : HttpResponse) : String :=
  if resp.status = 200 then mkSnippet resp.text else ""

/-- The snippet-gathering loop of `build_task` branch 2: one candidate per
catalog repository, pairing it with the snippet of its README response. -/
def buildCandidates (repos : List String) (readmes : String → HttpResponse) :
    List Candidate :=
  repos.map (fun r => ⟨r, readmeSnippet (readmes r)⟩)

/-- The two possible success payloads of `build_task`. -/
inductive BuildResult where
  | built (prompt : String) (template_path : String)
  | menu (prompt_messages : List Message) (note : String)
deriving Repr, DecidableEq

/-- The `note` string returned by `build_task` branch 2. -/
def buildNote : String :=
  "Reply with chosen repo, then call build_task again with source_task=<repo>."

/-- The resolution test of `build_task` branch 1:
`source_task.lower() in r.lower()`. -/
def matchesSource (source_task repo : String) : Bool :=
  pyIn (strLower source_task) (strLower repo)

/-- Branch 2 of `build_task` (no usable `source_task`): gather candidates,
build the selection prompt, touch no filesystem state. -/
def chooseBranch (target_task : String) (repos : List String)
    (readmes : String → HttpResponse) (st : FsState) :
    Except String BuildResult × FsState :=
  let snippets := buildCandidates repos readmes
  let msgs := choose_template_prompt ("A " ++ target_task ++ " task.") snippets
  (Except.ok (BuildResult.menu msgs buildNote), st)

/-- The snippet-gathering loop of `build_task` branch 2 with the fetch's
exception path kept: `await c.get(...)` either returns a response or
raises (timeout, connection error), modelled as `Except`, and the loop
catches nothing, so the first fetch failure in catalog order aborts. -/
def buildCandidatesE (repos : List String)
    (fetch : String → Except String HttpResponse) :
    Except String (List Candidate) :=
  repos.mapM (fun r => (fetch r).map (fun rd => ⟨r, readmeSnippet rd⟩))

/-- Branch 2 of `build_task` over the fallible fetch: a fetch failure
propagates unchanged; otherwise the selection prompt is built exactly as
in `chooseBranch`. -/
def chooseBranchE (target_task : String) (repos : List String)
    (fetch : String → Except String HttpResponse) (st : FsState) :
    Except String BuildResult × FsState :=
  match buildCandidatesE repos fetch with
  | Except.error e => (Except.error e, st)
  | Except.ok snippets =>
      (Except.ok (BuildResult.menu
        (choose_template_prompt ("A " ++ target_task ++ " task.") snippets)
        buildNote), st)

/-- `build_task`: with a truthy `source_task`, resolve it against the
catalog by first case-insensitive substring match, clone the match and
return the transformation prompt plus the local path; otherwise take
branch 2.  `Except.error` models the raised `ValueError`; the returned
`FsState` is the filesystem state after the call. -/
def build_task (target_task : String) (source_task : Option String)
    (api : List String) (readmes : String → HttpResponse) (st : FsState) :
    Except String BuildResult × FsState :=
  let repos := task_repos api
  match source_task with
  | some s =>
      if s = "" then chooseBranch target_task repos readmes st
      else
        match repos.find? (fun r => matchesSource s r) with
        | none => (Except.error "Template repo not found.", st)
        | some repo =>
            let res := clone repo st
            (Except.ok (BuildResult.built (transform_prompt s target_task).content res.1),
             res.2)
  | none => chooseBranch target_task repos readmes st

/-- `build_task` with the README fetch modelled at the transport level:
`c.get` can raise and nothing in the source catches, so branch 2 aborts
on the first failing fetch.  Restricting the fetch to one that always
returns a response recovers `build_task` (`build_taskE_total`). -/
def build_taskE (target_task : String) (source_task : Option String)
    (api : List String) (fetch : String → Except String HttpResponse)
    (st : FsState) : Except String BuildResult × FsState :=
  let repos := task_repos api
  match source_task with
  | some s =>
      if s = "" then chooseBranchE target_task repos fetch st
      else
        match repos.find? (fun r => matchesSource s r) with
        | none => (Except.error "Template repo not found.", st)
        | some repo =>
            let res := clone repo st
            (Except.ok (BuildResult.built (transform_prompt s target_task).content res.1),
             res.2)
  | none => chooseBranchE target_task repos fetch st

/-! ## Helper lemmas -/

theorem toList_append (a b : String) : (a ++ b).toList = a.toList ++ b.toList := by
  simp [String.toList, String.data_append]

theorem leadMatch_iff (n h : List Char) : leadMatch n h = true ↔ n <+: h := by
  induction n generalizing h with
  | nil => simp [leadMatch]
  | cons a xs ih =>
      cases h with
      | nil => simp [leadMatch]
      | cons b ys => simp [leadMatch, ih, List.cons_prefix_cons]

theorem subSearch_iff (n h : List Char) : subSearch n h = true ↔ n <:+: h := by
  induction h with
  | nil => simp [subSearch, leadMatch_iff]
  | cons b ys ih =>
      simp [subSearch, leadMatch_iff, ih, List.infix_cons_iff]

theorem pyIn_iff (n h : String) : pyIn n h = true ↔ n.toList <:+: h.toList :=
  subSearch_iff _ _

theorem pyIn_refl (s : String) : pyIn s s = true := by
  simp [pyIn_iff]

theorem pyIn_extend_left (x s m : String) (h : pyIn s m = true) :
    pyIn s (x ++ m) = true := by
  rw [pyIn_iff] at h ⊢
  rw [toList_append]
  exact h.trans (List.suffix_append _ _).isInfix

theorem pyIn_extend_right (s m y : String) (h : pyIn s m = true) :
    pyIn s (m ++ y) = true := by
  rw [pyIn_iff] at h ⊢
  rw [toList_append]
  exact h.trans (List.prefix_append _ _).isInfix

theorem find?_first {α : Type} (p : α → Bool) (pre post : List α) (a : α)
    (ha : p a = true) (hpre : ∀ x ∈ pre, p x = false) :
    (pre ++ a :: post).find? p = some a := by
  induction pre with
  | nil => simp [List.find?_cons_of_pos, ha]
  | cons b l ih =>
      have hb : p b = false := hpre b (List.mem_cons_self _ _)
      rw [List.cons_append, List.find?_cons_of_neg _ (by simp [hb])]
      exact ih (fun x hx => hpre x (List.mem_cons_of_mem _ hx))

theorem find?_none {α : Type} (p : α → Bool) (l : List α)
    (h : ∀ x ∈ l, p x = false) : l.find? p = none := by
  rw [List.find?_eq_none]
  intro x hx
  simp [h x hx]

theorem clone_fst (repo : String) (st : FsState) :
    (clone repo st).1 = cachePath repo := by
  unfold clone
  split <;> rfl

theorem ne_empty_of_toList_ne_nil (s : String) (h : s.toList ≠ []) : s ≠ "" := by
  intro he
  exact h (by simp [he])

theorem menuLine_ne_empty (c : Candidate) : menuLine c ≠ "" := by
  apply ne_empty_of_toList_ne_nil
  simp [menuLine, toList_append]

theorem joinNl_ne_empty (x : String) (xs : List String) (hx : x ≠ "") :
    joinNl (x :: xs) ≠ "" := by
  cases xs with
  | nil => simpa [joinNl] using hx
  | cons y ys =>
      apply ne_empty_of_toList_ne_nil
      simp [joinNl, toList_append]

theorem count_nl_joinNl (l : List String)
    (h : ∀ s ∈ l, ('\n' : Char) ∉ s.toList) (hne : l ≠ []) :
    (joinNl l).toList.count '\n' + 1 = l.length := by
  induction l with
  | nil => exact absurd rfl hne
  | cons x xs ih =>
      have hx : ('\n' : Char) ∉ x.toList := h x (List.mem_cons_self _ _)
      have hx2 : List.count '\n' x.data = 0 := List.count_eq_zero.mpr hx
      cases xs with
      | nil => simp [joinNl, hx2]
      | cons y ys =>
          have ih2 := ih (fun s hs => h s (List.mem_cons_of_mem _ hs)) (by simp)
          have hnl : ("\n" : String).data = ['\n'] := rfl
          have hstep : (joinNl (x :: y :: ys)).toList.count '\n' =
              (joinNl (y :: ys)).toList.count '\n' + 1 := by
            rw [show joinNl (x :: y :: ys) = x ++ "\n" ++ joinNl (y :: ys) from rfl,
              toList_append, toList_append]
            simp [String.toList, hnl, List.count_append, hx2]
          simp only [List.length_cons] at ih2 ⊢
          omega

theorem mapM_ok_of_all {α β : Type} (f : α → Except String β) (g : α → β)
    (l : List α) (h : ∀ a ∈ l, f a = Except.ok (g a)) :
    l.mapM f = Except.ok (l.map g) := by
  induction l with
  | nil => rfl
  | cons a as ih =>
      rw [List.mapM_cons, h a (List.mem_cons_self _ _),
        ih (fun y hy => h y (List.mem_cons_of_mem _ hy))]
      rfl

theorem mapM_error_first {α β : Type} (f : α → Except String β)
    (pre post : List α) (x : α) (e : String)
    (hpre : ∀ a ∈ pre, ∃ b, f a = Except.ok b)
    (hx : f x = Except.error e) :
    (pre ++ x :: post).mapM f = Except.error e := by
  induction pre with
  | nil =>
      rw [List.nil_append, List.mapM_cons, hx]
      rfl
  | cons a l ih =>
      obtain ⟨b, hb⟩ := hpre a (List.mem_cons_self _ _)
      rw [List.cons_append, List.mapM_cons, hb,
        ih (fun y hy => hpre y (List.mem_cons_of_mem _ hy))]
      rfl

theorem buildCandidatesE_ok (repos : List String)
    (fetch : String → Except String HttpResponse)
    (resp : String → HttpResponse)
    (h : ∀ a ∈ repos, fetch a = Except.ok (resp a)) :
    buildCandidatesE repos fetch = Except.ok (buildCandidates repos resp) := by
  unfold buildCandidatesE buildCandidates
  refine mapM_ok_of_all _ _ _ ?_
  intro a ha
  rw [h a ha]
  rfl

theorem buildCandidatesE_error (fetch : String → Except String HttpResponse)
    (pre post : List String) (x e : String)
    (hpre : ∀ a ∈ pre, ∃ b, fetch a = Except.ok b)
    (hx : fetch x = Except.error e) :
    buildCandidatesE (pre ++ x :: post) fetch = Except.error e := by
  unfold buildCandidatesE
  refine mapM_error_first _ _ _ _ _ ?_ ?_
  · intro a ha
    obtain ⟨b, hb⟩ := hpre a ha
    exact ⟨⟨a, readmeSnippet b⟩, by rw [hb]; rfl⟩
  · rw [hx]
    rfl

theorem build_taskE_total (target_task : String) (source_task : Option String)
    (api : List String) (resp : String → HttpResponse) (st : FsState) :
    build_taskE target_task source_task api (fun r => Except.ok (resp r)) st =
      build_task target_task source_task api resp st := by
  have hc : chooseBranchE target_task (task_repos api)
      (fun r => Except.ok (resp r)) st =
      chooseBranch target_task (task_repos api) resp st := by
    unfold chooseBranchE chooseBranch
    rw [buildCandidatesE_ok _ _ resp (fun a _ => rfl)]
  cases source_task with
  | none => exact hc
  | some s =>
      by_cases hs : s = ""
      · simpa [build_taskE, build_task, hs] using hc
      · simp [build_taskE, build_task, hs]

theorem mkSnippet_no_nl (text : String) :
    ('\n' : Char) ∉ (mkSnippet text).toList := by
  intro hmem
  rw [show (mkSnippet text).toList =
      (text.toList.take 2000).map (fun c => if c = '\n' then ' ' else c)
    from rfl] at hmem
  obtain ⟨c, _, hc⟩ := List.mem_map.mp hmem
  by_cases h : c = '\n'
  · rw [if_pos h] at hc
    exact absurd hc (by decide)
  · rw [if_neg h] at hc
    exact h hc

theorem readmeSnippet_no_nl (resp : HttpResponse) :
    ('\n' : Char) ∉ (readmeSnippet resp).toList := by
  unfold readmeSnippet
  split
  · exact mkSnippet_no_nl _
  · exact (by decide : ('\n' : Char) ∉ ("" : String).toList)

theorem menuLine_no_nl (c : Candidate)
    (h1 : ('\n' : Char) ∉ c.repo.toList)
    (h2 : ('\n' : Char) ∉ c.readme_snippet.toList) :
    ('\n' : Char) ∉ (menuLine c).toList := by
  unfold menuLine
  intro hmem
  rw [toList_append, toList_append, toList_append] at hmem
  rcases List.mem_append.mp hmem with h | h
  · rcases List.mem_append.mp h with h3 | h3
    · rcases List.mem_append.mp h3 with h0 | h0
      · exact absurd h0 (by decide)
      · exact h1 h0
    · exact absurd h3 (by decide)
  · exact h2 h

/-! ## Theorems -/

/-- C9: `translate_config_prompt` returns exactly two messages and the
second message carries the input document text verbatim, unmodified. -/
theorem translate_config_prompt_second_verbatim
    (yaml_text target_language : String) :
    (translate_config_prompt yaml_text target_language).length = 2 ∧
    (translate_config_prompt yaml_text target_language)[1]? =
      some (UserMessage yaml_text) := by
  exact ⟨rfl, rfl⟩

/-- C3: the clone cache is idempotent — the second call returns the same
path and changes nothing, at most one clone happens across both calls, and
a call whose destination directory already exists performs no clone and
leaves the state untouched. -/
theorem clone_idempotent (repo : String) (st : FsState) :
    (clone repo (clone repo st).2).1 = (clone repo st).1 ∧
    clone repo (clone repo st).2 = ((clone repo st).1, (clone repo st).2) ∧
    (clone repo st).2.cloneCount ≤ st.cloneCount + 1 ∧
    (repo ∈ st.dirs → clone repo st = (cachePath repo, st)) := by
  by_cases h : repo ∈ st.dirs
  · simp [clone, h]
  · simp [clone, h]

/-- C3 witness: concrete runs of `clone` on an empty cache. -/
theorem clone_idempotent_witness :
    (clone "stroop-task" (clone "stroop-task" ⟨[], 0⟩).2).1 =
      (clone "stroop-task" ⟨[], 0⟩).1 ∧
    clone "stroop-task" (clone "stroop-task" ⟨[], 0⟩).2 =
      ((clone "stroop-task" ⟨[], 0⟩).1, (clone "stroop-task" ⟨[], 0⟩).2) ∧
    (clone "stroop-task" ⟨[], 0⟩).2.cloneCount ≤ 0 + 1 ∧
    ("stroop-task" ∈ (FsState.mk [] 0).dirs →
      clone "stroop-task" ⟨[], 0⟩ = (cachePath "stroop-task", ⟨[], 0⟩)) :=
  clone_idempotent "stroop-task" ⟨[], 0⟩

theorem promptText_contains_source (s t : String) :
    pyIn s (promptText s t) = true := by
  unfold promptText
  apply pyIn_extend_right
  apply pyIn_extend_right
  apply pyIn_extend_right
  apply pyIn_extend_right
  apply pyIn_extend_right
  apply pyIn_extend_right
  apply pyIn_extend_right
  apply pyIn_extend_right
  apply pyIn_extend_right
  exact pyIn_extend_left _ _ _ (pyIn_refl s)

theorem promptText_contains_target (s t : String) :
    pyIn t (promptText s t) = true := by
  unfold promptText
  apply pyIn_extend_right
  apply pyIn_extend_right
  apply pyIn_extend_right
  apply pyIn_extend_right
  apply pyIn_extend_right
  apply pyIn_extend_right
  apply pyIn_extend_right
  exact pyIn_extend_left _ _ _ (pyIn_refl t)

/-- C1: with a non-empty `source_task` whose first case-insensitive
substring match in catalog order is `repo` (no earlier catalog entry
matches), `build_task` succeeds with the rendered transformation prompt
as `prompt` and the clone cache's path for `repo` as `template_path`,
threading the post-clone filesystem state; the prompt contains both
`source_task` and `target_task` verbatim. -/
theorem build_task_first_match
    (target_task source_task : String) (api : List String)
    (readmes : String → HttpResponse) (st : FsState)
    (pre post : List String) (repo : String)
    (hs : source_task ≠ "")
    (hsplit : task_repos api = pre ++ repo :: post)
    (hmatch : matchesSource source_task repo = true)
    (hpre : ∀ r ∈ pre, matchesSource source_task r = false) :
    build_task target_task (some source_task) api readmes st =
      (Except.ok (BuildResult.built (promptText source_task target_task)
        (cachePath repo)), (clone repo st).2) ∧
    (clone repo st).1 = cachePath repo ∧
    pyIn source_task (promptText source_task target_task) = true ∧
    pyIn target_task (promptText source_task target_task) = true := by
  have hfind : (task_repos api).find? (fun r => matchesSource source_task r) =
      some repo := by
    rw [hsplit]
    exact find?_first _ _ _ _ hmatch hpre
  refine ⟨?_, clone_fst repo st, promptText_contains_source _ _,
    promptText_contains_target _ _⟩
  simp [build_task, hs, hfind, transform_prompt, UserMessage, clone_fst]

/-- C1 witness: `build_task("flanker", "stroop")` against the catalog
`["task-registry", "stroop-task"]` resolves to `stroop-task`. -/
theorem build_task_first_match_witness :
    build_task "flanker" (some "stroop") ["task-registry", "stroop-task"]
        (fun _ => ⟨404, ""⟩) ⟨[], 0⟩ =
      (Except.ok (BuildResult.built (promptText "stroop" "flanker")
        (cachePath "stroop-task")), (clone "stroop-task" ⟨[], 0⟩).2) ∧
    (clone "stroop-task" (⟨[], 0⟩ : FsState)).1 = cachePath "stroop-task" ∧
    pyIn "stroop" (promptText "stroop" "flanker") = true ∧
    pyIn "flanker" (promptText "stroop" "flanker") = true :=
  build_task_first_match "flanker" "stroop" ["task-registry", "stroop-task"]
    (fun _ => ⟨404, ""⟩) ⟨[], 0⟩ [] [] "stroop-task"
    (by decide) (by decide) (by decide) (by simp)

/-- C2: with a non-empty `source_task` matching no catalog entry by
case-insensitive substring containment, `build_task` fails with the
template-not-found error (the raised `ValueError("Template repo not
found.")`) and returns the filesystem state unchanged: no clone is
performed and no cache directory is created. -/
theorem build_task_no_match
    (target_task source_task : String) (api : List String)
    (readmes : String → HttpResponse) (st : FsState)
    (hs : source_task ≠ "")
    (hnone : ∀ r ∈ task_repos api, matchesSource source_task r = false) :
    build_task target_task (some source_task) api readmes st =
      (Except.error "Template repo not found.", st) := by
  simp [build_task, hs, find?_none _ _ hnone]

/-- C2 witness: `build_task("stroop", "flanker")` against a catalog with
no matching entry fails and leaves the empty cache state untouched. -/
theorem build_task_no_match_witness :
    build_task "stroop" (some "flanker") ["task-registry", "stroop-task"]
        (fun _ => ⟨404, ""⟩) ⟨[], 0⟩ =
      (Except.error "Template repo not found.", ⟨[], 0⟩) :=
  build_task_no_match "stroop" "flanker" ["task-registry", "stroop-task"]
    (fun _ => ⟨404, ""⟩) ⟨[], 0⟩ (by decide) (by decide)

/-- C10: calling `build_task` with `source_task` equal to the empty
string behaves exactly like calling it with `source_task` absent: the
results coincide, the filesystem state is unchanged (no clone), and the
candidate-selection menu is returned — never the not-found error. -/
theorem build_task_empty_source (target_task : String) (api : List String)
    (readmes : String → HttpResponse) (st : FsState) :
    build_task target_task (some "") api readmes st =
      build_task target_task none api readmes st ∧
    (build_task target_task (some "") api readmes st).2 = st ∧
    (build_task target_task (some "") api readmes st).1 =
      Except.ok (BuildResult.menu
        (choose_template_prompt ("A " ++ target_task ++ " task.")
          (buildCandidates (task_repos api) readmes)) buildNote) :=
  ⟨rfl, rfl, rfl⟩

/-- C4: a name is in the filtered catalog exactly when the hosting API
returned it and it is not in the exclusion set; in particular no member of
`NON_TASK_REPOS` ever appears, whatever the API returns, and the
membership test is exact (case-sensitive) equality. -/
theorem task_repos_excludes (api : List String) (name : String) :
    name ∈ task_repos api ↔ name ∈ api ∧ name ∉ NON_TASK_REPOS := by
  simp [task_repos, List.mem_filter]

/-- C5 counterexample: branch 2 catches nothing around the README fetch —
with one catalog repository whose fetch raises (a timeout), the call
aborts with that error instead of returning the menu with that
repository's snippet degraded to the empty string, as the claim requires
of a failed fetch. -/
theorem build_task_readme_fetch_raises :
    build_taskE "flanker" none ["stroop-task"]
        (fun _ => Except.error "httpx.ReadTimeout") ⟨[], 0⟩ =
      (Except.error "httpx.ReadTimeout", ⟨[], 0⟩) ∧
    build_taskE "flanker" none ["stroop-task"]
        (fun _ => Except.error "httpx.ReadTimeout") ⟨[], 0⟩ ≠
      (Except.ok (BuildResult.menu
        (choose_template_prompt ("A " ++ "flanker" ++ " task.")
          [⟨"stroop-task", ""⟩]) buildNote), ⟨[], 0⟩) := by
  refine ⟨rfl, ?_⟩
  intro h
  exact Except.noConfusion (congrArg Prod.fst h)

/-- C5 (amended): in the no-source branch, when every catalog README
fetch returns an HTTP response, `build_task` succeeds with one candidate
per catalog repository in order — the snippet is the body truncated to
2000 characters with newlines replaced by spaces on status 200 and the
empty string on any other status, so an unavailable README (non-success
response) never excludes its repository and never errors; but when the
fetch of some catalog repository `x` raises, every repository before `x`
in catalog order fetching successfully, the error is not caught:
`build_task` aborts with it and returns no menu. -/
theorem build_taskE_readme_snippets
    (target_task : String) (api : List String)
    (fetch fetch2 : String → Except String HttpResponse)
    (resp : String → HttpResponse) (st : FsState)
    (r x e : String) (pre post : List String)
    (hr : r ∈ task_repos api)
    (hfetch : ∀ a ∈ task_repos api, fetch a = Except.ok (resp a))
    (hsplit : task_repos api = pre ++ x :: post)
    (hpre : ∀ a ∈ pre, ∃ b, fetch2 a = Except.ok b)
    (hx : fetch2 x = Except.error e) :
    build_taskE target_task none api fetch st =
      (Except.ok (BuildResult.menu
        (choose_template_prompt ("A " ++ target_task ++ " task.")
          (buildCandidates (task_repos api) resp)) buildNote), st) ∧
    (buildCandidates (task_repos api) resp).map Candidate.repo =
      task_repos api ∧
    Candidate.mk r (readmeSnippet (resp r)) ∈
      buildCandidates (task_repos api) resp ∧
    ((resp r).status = 200 →
      (readmeSnippet (resp r)).toList =
        ((resp r).text.toList.take 2000).map
          (fun c => if c = '\n' then ' ' else c)) ∧
    ((resp r).status ≠ 200 → readmeSnippet (resp r) = "") ∧
    build_taskE target_task none api fetch2 st = (Except.error e, st) := by
  refine ⟨?_, ?_, ?_, ?_, ?_, ?_⟩
  · show chooseBranchE target_task (task_repos api) fetch st = _
    unfold chooseBranchE
    rw [buildCandidatesE_ok _ fetch resp hfetch]
  · unfold buildCandidates
    rw [List.map_map]
    have hfun : (Candidate.repo ∘ fun a =>
        (⟨a, readmeSnippet (resp a)⟩ : Candidate)) = id := rfl
    rw [hfun, List.map_id]
  · exact List.mem_map_of_mem _ hr
  · intro h200
    unfold readmeSnippet
    rw [if_pos h200]
    rfl
  · intro hns
    unfold readmeSnippet
    rw [if_neg hns]
  · show chooseBranchE target_task (task_repos api) fetch2 st = _
    unfold chooseBranchE
    rw [hsplit, buildCandidatesE_error fetch2 pre post x e hpre hx]

/-- C5 witness: a one-repository catalog, once with a fetch returning a
status-200 two-line README and once with a fetch that raises a timeout. -/
theorem build_taskE_readme_snippets_witness :
    build_taskE "flanker" none ["stroop-task"]
        (fun _ => Except.ok (⟨200, "# Stroop\nClassic task"⟩ : HttpResponse))
        ⟨[], 0⟩ =
      (Except.ok (BuildResult.menu
        (choose_template_prompt ("A " ++ "flanker" ++ " task.")
          (buildCandidates (task_repos ["stroop-task"])
            (fun _ => (⟨200, "# Stroop\nClassic task"⟩ : HttpResponse))))
        buildNote), ⟨[], 0⟩) ∧
    (buildCandidates (task_repos ["stroop-task"])
        (fun _ => (⟨200, "# Stroop\nClassic task"⟩ : HttpResponse))).map
        Candidate.repo =
      task_repos ["stroop-task"] ∧
    Candidate.mk "stroop-task"
        (readmeSnippet (⟨200, "# Stroop\nClassic task"⟩ : HttpResponse)) ∈
      buildCandidates (task_repos ["stroop-task"])
        (fun _ => (⟨200, "# Stroop\nClassic task"⟩ : HttpResponse)) ∧
    ((⟨200, "# Stroop\nClassic task"⟩ : HttpResponse).status = 200 →
      (readmeSnippet (⟨200, "# Stroop\nClassic task"⟩ : HttpResponse)).toList =
        (((⟨200, "# Stroop\nClassic task"⟩ :
          HttpResponse).text.toList.take 2000).map
          (fun c => if c = '\n' then ' ' else c))) ∧
    ((⟨200, "# Stroop\nClassic task"⟩ : HttpResponse).status ≠ 200 →
      readmeSnippet (⟨200, "# Stroop\nClassic task"⟩ : HttpResponse) = "") ∧
    build_taskE "flanker" none ["stroop-task"]
        (fun _ => Except.error "httpx.ReadTimeout") ⟨[], 0⟩ =
      (Except.error "httpx.ReadTimeout", ⟨[], 0⟩) :=
  build_taskE_readme_snippets "flanker" ["stroop-task"]
    (fun _ => Except.ok (⟨200, "# Stroop\nClassic task"⟩ : HttpResponse))
    (fun _ => Except.error "httpx.ReadTimeout")
    (fun _ => (⟨200, "# Stroop\nClassic task"⟩ : HttpResponse))
    ⟨[], 0⟩ "stroop-task" "stroop-task" "httpx.ReadTimeout" [] []
    (by decide) (fun a _ => rfl) rfl
    (fun a ha => absurd ha (List.not_mem_nil a)) rfl

/-- C6: without a `source_task`, `build_task` returns the filesystem
state unchanged (the clone cache is never invoked), yields the selection
messages plus the re-invocation note, keeps one candidate per catalog
repository in order, takes the joined menu rather than the placeholder,
and the joined menu consists of exactly one line per catalog repository. -/
theorem build_task_no_source_menu
    (target_task : String) (api : List String)
    (readmes : String → HttpResponse) (st : FsState)
    (hne : task_repos api ≠ [])
    (hnn : ∀ r ∈ task_repos api, ('\n' : Char) ∉ r.toList) :
    build_task target_task none api readmes st =
      (Except.ok (BuildResult.menu
        (choose_template_prompt ("A " ++ target_task ++ " task.")
          (buildCandidates (task_repos api) readmes)) buildNote), st) ∧
    buildNote =
      "Reply with chosen repo, then call build_task again with source_task=<repo>." ∧
    (buildCandidates (task_repos api) readmes).map Candidate.repo =
      task_repos api ∧
    menuOf (buildCandidates (task_repos api) readmes) =
      joinNl ((buildCandidates (task_repos api) readmes).map menuLine) ∧
    (menuOf (buildCandidates (task_repos api) readmes)).toList.count '\n' + 1 =
      (task_repos api).length := by
  obtain ⟨r0, rs, hcons⟩ := List.exists_cons_of_ne_nil hne
  have hjoin_ne : joinNl ((buildCandidates (task_repos api) readmes).map menuLine) ≠ "" := by
    rw [hcons]
    exact joinNl_ne_empty _ _ (menuLine_ne_empty _)
  have hmenuOf : menuOf (buildCandidates (task_repos api) readmes) =
      joinNl ((buildCandidates (task_repos api) readmes).map menuLine) := by
    simp only [menuOf]
    rw [if_neg hjoin_ne]
  have hlines_nl : ∀ s ∈ (buildCandidates (task_repos api) readmes).map menuLine,
      ('\n' : Char) ∉ s.toList := by
    intro s hs
    obtain ⟨c, hc, hcs⟩ := List.mem_map.mp hs
    unfold buildCandidates at hc
    obtain ⟨r, hrmem, hrc⟩ := List.mem_map.mp hc
    subst hcs
    subst hrc
    exact menuLine_no_nl _ (hnn r hrmem) (readmeSnippet_no_nl _)
  have hlines_ne : (buildCandidates (task_repos api) readmes).map menuLine ≠ [] := by
    rw [hcons]
    simp [buildCandidates]
  have hcount := count_nl_joinNl _ hlines_nl hlines_ne
  refine ⟨rfl, rfl, ?_, hmenuOf, ?_⟩
  · unfold buildCandidates
    rw [List.map_map]
    have hfun : (Candidate.repo ∘ fun r =>
        (⟨r, readmeSnippet (readmes r)⟩ : Candidate)) = id := rfl
    rw [hfun, List.map_id]
  · rw [hmenuOf, hcount]
    simp [buildCandidates]

/-- C6 witness: a one-repository catalog; the menu of the returned
listing message has exactly one line. -/
theorem build_task_no_source_menu_witness :
    build_task "flanker" none ["stroop-task"]
        (fun _ => ⟨200, "# Stroop\nClassic task"⟩) ⟨[], 0⟩ =
      (Except.ok (BuildResult.menu
        (choose_template_prompt ("A " ++ "flanker" ++ " task.")
          (buildCandidates (task_repos ["stroop-task"])
            (fun _ => ⟨200, "# Stroop\nClassic task"⟩))) buildNote), ⟨[], 0⟩) ∧
    buildNote =
      "Reply with chosen repo, then call build_task again with source_task=<repo>." ∧
    (buildCandidates (task_repos ["stroop-task"])
        (fun _ => ⟨200, "# Stroop\nClassic task"⟩)).map Candidate.repo =
      task_repos ["stroop-task"] ∧
    menuOf (buildCandidates (task_repos ["stroop-task"])
        (fun _ => ⟨200, "# Stroop\nClassic task"⟩)) =
      joinNl ((buildCandidates (task_repos ["stroop-task"])
        (fun _ => ⟨200, "# Stroop\nClassic task"⟩)).map menuLine) ∧
    (menuOf (buildCandidates (task_repos ["stroop-task"])
        (fun _ => ⟨200, "# Stroop\nClassic task"⟩))).toList.count '\n' + 1 =
      (task_repos ["stroop-task"]).length :=
  build_task_no_source_menu "flanker" ["stroop-task"]
    (fun _ => ⟨200, "# Stroop\nClassic task"⟩) ⟨[], 0⟩ (by decide) (by decide)

/-- C7: at an upstream list of 11 branches (within the 100-per-page
request bound) the inspector returns all 11 names: the slice keeps 20
entries, contradicting the `cap at 10` comment beside it and the
documented bound of 10. -/
theorem repo_branches_exceeds_ten :
    repo_branches ⟨200, [⟨"b01"⟩, ⟨"b02"⟩, ⟨"b03"⟩, ⟨"b04"⟩, ⟨"b05"⟩, ⟨"b06"⟩,
        ⟨"b07"⟩, ⟨"b08"⟩, ⟨"b09"⟩, ⟨"b10"⟩, ⟨"b11"⟩]⟩ =
      ["b01", "b02", "b03", "b04", "b05", "b06", "b07", "b08", "b09", "b10",
       "b11"] ∧
    10 < (repo_branches ⟨200, [⟨"b01"⟩, ⟨"b02"⟩, ⟨"b03"⟩, ⟨"b04"⟩, ⟨"b05"⟩,
        ⟨"b06"⟩, ⟨"b07"⟩, ⟨"b08"⟩, ⟨"b09"⟩, ⟨"b10"⟩, ⟨"b11"⟩]⟩).length := by
  constructor
  · rfl
  · decide

/-- C8 counterexample: a non-success (404) branch-listing response whose
body parses to one branch named `main` yields `["main"]`, not the empty
sequence the claim requires for every non-success response. -/
theorem repo_branches_404_not_empty :
    repo_branches ⟨404, [⟨"main"⟩]⟩ = ["main"] ∧
    repo_branches ⟨404, [⟨"main"⟩]⟩ ≠ [] := by
  constructor
  · rfl
  · decide

/-- C8 (amended): the branch inspector never inspects the response
status — for any two status codes and the same parsed body the result is
identical, namely the first 20 parsed branch names (so at most 20, and a
non-success response is not mapped to the empty sequence). -/
theorem repo_branches_status_ignored (s1 s2 : Nat) (body : List BranchInfo) :
    repo_branches ⟨s1, body⟩ = repo_branches ⟨s2, body⟩ ∧
    (repo_branches ⟨s1, body⟩).length ≤ 20 :=
  ⟨rfl, List.length_take_le 20 (body.map BranchInfo.name)⟩

end PsyflowMcp
